import Mathlib

/-!
Verification development for the project-execution orchestrator in
`mlflow/projects/__init__.py` (criteo-forks/mlflow).

Python source constructs are shallowly embedded as executable Lean
definitions.  Effectful collaborators (the tracking service, the conda
and docker command-line tools, the file system, the ambient process
environment) are threaded explicitly: reads become function-valued
parameters, writes become traces of events.  Machine-level hashing
(`hashlib.sha1`) is implemented bit-faithfully over `Nat` with explicit
reduction modulo 2^32.
-/

/-- Exceptions raised by the embedded code.  `executionException` and
`mlflowException` model the repository's own exception classes;
`keyboardInterrupt` models `KeyboardInterrupt`; `typeError` models a
`TypeError` raised by the Python runtime; `externalError` models an
arbitrary exception escaping an external tool invocation. -/
inductive PyErr
  | executionException (msg : String)
  | mlflowException (msg : String)
  | keyboardInterrupt
  | typeError
  | externalError
deriving DecidableEq

/-- Python `str(x)` for an optional string: `None` prints as "None". -/
def pyStrOfOpt : Option String → String
  | some s => s
  | none => "None"

/-- Python `str.join` over a list of strings (all items strings). -/
def pyJoinStrs (sep : String) : List String → String
  | [] => ""
  | [x] => x
  | x :: y :: rest => x ++ sep ++ pyJoinStrs sep (y :: rest)

/-- Python `str(lst)` for a list of strings: items rendered with single
quotes, separated by ", ", wrapped in brackets. -/
def pyReprStrList (xs : List String) : String :=
  "[" ++ pyJoinStrs ", " (xs.map (fun s => "\x27" ++ s ++ "\x27")) ++ "]"

/-! ## SHA-1 (`hashlib.sha1`), implemented over `Nat` mod 2^32 -/

/-- Truncate to a 32-bit word. -/
def w32 (n : Nat) : Nat := n % 4294967296

/-- Rotate a 32-bit word left by `k` bits. -/
def rotl32 (k n : Nat) : Nat := w32 (n <<< k) ||| (n >>> (32 - k))

/-- Big-endian bytes of a 64-bit length field. -/
def be64 (n : Nat) : List Nat :=
  [(n >>> 56) % 256, (n >>> 48) % 256, (n >>> 40) % 256, (n >>> 32) % 256,
   (n >>> 24) % 256, (n >>> 16) % 256, (n >>> 8) % 256, n % 256]

/-- SHA-1 padding: append 0x80, zero bytes to 56 mod 64, then the
64-bit big-endian bit length. -/
def sha1Pad (msg : List Nat) : List Nat :=
  let len := msg.length
  let k := (119 - len % 64) % 64
  msg ++ [128] ++ List.replicate k 0 ++ be64 (len * 8)

/-- Split a byte list into 64-byte chunks. -/
def chunk64 : List Nat → List (List Nat)
  | [] => []
  | x :: xs => (List.take 64 (x :: xs)) :: chunk64 (List.drop 64 (x :: xs))
termination_by l => l.length
decreasing_by simp [List.length_drop]; omega

/-- Combine bytes 4 at a time into big-endian 32-bit words. -/
def toWords : List Nat → List Nat
  | a :: b :: c :: d :: rest => ((a <<< 24) ||| (b <<< 16) ||| (c <<< 8) ||| d) :: toWords rest
  | _ => []

/-- Message-schedule extension, operating on the reversed word list:
each step prepends rotl1 of w[t-3] xor w[t-8] xor w[t-14] xor w[t-16]. -/
def sha1ExtendAux : Nat → List Nat → List Nat
  | 0, wsRev => wsRev
  | k + 1, wsRev =>
    sha1ExtendAux k
      (rotl32 1 ((wsRev.getD 2 0) ^^^ (wsRev.getD 7 0) ^^^ (wsRev.getD 13 0) ^^^ (wsRev.getD 15 0)) :: wsRev)

/-- The 80-word message schedule of one block (16 input words). -/
def sha1Schedule (block : List Nat) : List Nat :=
  (sha1ExtendAux 64 block.reverse).reverse

/-- SHA-1 round function for round `t`. -/
def sha1F (t b c d : Nat) : Nat :=
  if t < 20 then (b &&& c) ||| ((4294967295 ^^^ b) &&& d)
  else if t < 40 then b ^^^ c ^^^ d
  else if t < 60 then (b &&& c) ||| (b &&& d) ||| (c &&& d)
  else b ^^^ c ^^^ d

/-- SHA-1 round constant for round `t`. -/
def sha1K (t : Nat) : Nat :=
  if t < 20 then 1518500249
  else if t < 40 then 1859775393
  else if t < 60 then 2400959708
  else 3395469782

/-- The 80 SHA-1 rounds over the schedule words. -/
def sha1Rounds : List Nat → Nat → Nat × Nat × Nat × Nat × Nat → Nat × Nat × Nat × Nat × Nat
  | [], _, st => st
  | wt :: ws, t, (a, b, c, d, e) =>
    let temp := w32 (rotl32 5 a + sha1F t b c d + e + sha1K t + wt)
    sha1Rounds ws (t + 1) (temp, a, rotl32 30 b, c, d)

/-- Process one 64-byte block into the running hash state. -/
def sha1Block (h0 h1 h2 h3 h4 : Nat) (block : List Nat) : Nat × Nat × Nat × Nat × Nat :=
  match sha1Rounds (sha1Schedule (toWords block)) 0 (h0, h1, h2, h3, h4) with
  | (a, b, c, d, e) => (w32 (h0 + a), w32 (h1 + b), w32 (h2 + c), w32 (h3 + d), w32 (h4 + e))

/-- Full SHA-1 state over a byte message. -/
def sha1Core (msg : List Nat) : Nat × Nat × Nat × Nat × Nat :=
  (chunk64 (sha1Pad msg)).foldl
    (fun h blk => match h with
      | (h0, h1, h2, h3, h4) => sha1Block h0 h1 h2 h3 h4 blk)
    (1732584193, 4023233417, 2562383102, 271733878, 3285377520)

/-- Lower-case hex digit. -/
def hexDigit (n : Nat) : Char := Char.ofNat (if n < 10 then 48 + n else 87 + n)

/-- Eight hex digits of a 32-bit word, most significant first. -/
def wordHex (w : Nat) : List Char :=
  [hexDigit ((w >>> 28) % 16), hexDigit ((w >>> 24) % 16), hexDigit ((w >>> 20) % 16),
   hexDigit ((w >>> 16) % 16), hexDigit ((w >>> 12) % 16), hexDigit ((w >>> 8) % 16),
   hexDigit ((w >>> 4) % 16), hexDigit (w % 16)]

/-- `hashlib.sha1(bytes).hexdigest()`. -/
def sha1Hexdigest (msg : List Nat) : String :=
  match sha1Core msg with
  | (a, b, c, d, e) =>
    String.mk (wordHex a ++ wordHex b ++ wordHex c ++ wordHex d ++ wordHex e)

/-- UTF-8 encoding of one code point (`str.encode("utf-8")`, per char). -/
def utf8EncodeCp (c : Nat) : List Nat :=
  if c < 128 then [c]
  else if c < 2048 then [192 + c / 64, 128 + c % 64]
  else if c < 65536 then [224 + c / 4096, 128 + (c / 64) % 64, 128 + c % 64]
  else [240 + c / 262144, 128 + (c / 4096) % 64, 128 + (c / 64) % 64, 128 + c % 64]

/-- `str.encode("utf-8")` as a byte list. -/
def utf8Bytes (s : String) : List Nat :=
  s.data.foldr (fun ch acc => utf8EncodeCp ch.toNat ++ acc) []

/-! ## `_get_conda_env_name` and `_get_or_create_conda_env` -/

/-- The string whose hash names the environment: the dependency-file
contents with the discriminator appended when the discriminator is
truthy (`if env_id: conda_env_contents += env_id`). -/
def condaKeyInput (conda_env_contents : String) (env_id : Option String) : String :=
  match env_id with
  | some e => if e = "" then conda_env_contents else conda_env_contents ++ e
  | none => conda_env_contents

/-- `_get_conda_env_name(conda_env_path, env_id)`.  The source opens
`conda_env_path` and reads it (empty string when the path is falsy); the
file system read is modelled by passing the resulting file contents
directly as `conda_env_contents`. -/
def _get_conda_env_name (conda_env_contents : String) (env_id : Option String) : String :=
  "mlflow-" ++ sha1Hexdigest (utf8Bytes (condaKeyInput conda_env_contents env_id))

/-- State of the external conda installation, as observed through
`process.exec_cmd`: whether the probed conda executable is runnable
(`conda --help` raises `EnvironmentError` otherwise), and the names of
the existing environments as reported by `conda env list --json` (the
source takes the basename of each listed path; the names are modelled
directly). -/
structure CondaState where
  condaWorks : Bool
  envs : List String
deriving DecidableEq

/-- Conda commands issued through `process.exec_cmd`. -/
inductive CondaCmd
  | probeHelp
  | listEnvs
  | createFromFile (name : String) (file : String)
  | createBare (name : String)
deriving DecidableEq

/-- Whether a conda command creates an environment. -/
def isCreateCmd : CondaCmd → Bool
  | CondaCmd.createFromFile _ _ => true
  | CondaCmd.createBare _ => true
  | _ => false

/-- Number of environment-creating commands in a trace. -/
def createCount (t : List CondaCmd) : Nat := (t.filter isCreateCmd).length

/-- The "Conda executable not found" message raised when the probe
fails (`str.format` holes rendered by concatenation). -/
def condaMissingMsg (conda_path : String) : String :=
  "Could not find Conda executable at " ++ conda_path ++
  ". Ensure Conda is installed as per the instructions at " ++
  "https://conda.io/projects/conda/en/latest/user-guide/install/index.html. " ++
  "You can also configure MLflow to look for a specific Conda executable " ++
  "by setting the MLFLOW_CONDA_HOME environment variable to the path of the Conda executable"

/-- The `open(conda_env_path).read() if conda_env_path else ""` read
performed to obtain the dependency-file contents, with the file system
modelled by `readFile`. -/
def condaFileContents (readFile : String → String) : Option String → String
  | some p => if p = "" then "" else readFile p
  | none => ""

/-- `_get_or_create_conda_env(conda_env_path, env_id)`.

`conda_path` is the result of `_get_conda_bin_executable("conda")`
(ambient-environment plumbing, passed as explicit configuration);
`readFile` models the file system read performed inside
`_get_conda_env_name`.  Returns the trace of conda commands issued and
either the raised exception or the environment name together with the
resulting conda state.  The external tool semantics `conda env create
-n NAME` / `conda create -n NAME python` registering `NAME` in the
environment list is modelled by consing the name onto `envs`. -/
def _get_or_create_conda_env (conda_path : String) (readFile : String → String)
    (conda_env_path : Option String) (env_id : Option String) (s : CondaState) :
    List CondaCmd × Except PyErr (String × CondaState) :=
  if s.condaWorks = false then
    ([CondaCmd.probeHelp], Except.error (PyErr.executionException (condaMissingMsg conda_path)))
  else
    let project_env_name := _get_conda_env_name (condaFileContents readFile conda_env_path) env_id
    if project_env_name ∈ s.envs then
      ([CondaCmd.probeHelp, CondaCmd.listEnvs], Except.ok (project_env_name, s))
    else
      let created : CondaState := CondaState.mk s.condaWorks (project_env_name :: s.envs)
      match conda_env_path with
      | some p =>
        if p = "" then
          ([CondaCmd.probeHelp, CondaCmd.listEnvs, CondaCmd.createBare project_env_name],
           Except.ok (project_env_name, created))
        else
          ([CondaCmd.probeHelp, CondaCmd.listEnvs, CondaCmd.createFromFile project_env_name p],
           Except.ok (project_env_name, created))
      | none =>
        ([CondaCmd.probeHelp, CondaCmd.listEnvs, CondaCmd.createBare project_env_name],
         Except.ok (project_env_name, created))

/-! ## Run status, tracking events, the supervisor -/

/-- Modelled from the spec: run statuses live in `mlflow.entities`
(not under `src/`); the run lifecycle is RUNNING (plus a SCHEDULED
pre-state) transitioning once into one of the absorbing terminal
states FINISHED, FAILED, KILLED. -/
inductive RunStatus
  | RUNNING
  | SCHEDULED
  | FINISHED
  | FAILED
  | KILLED
deriving DecidableEq

/-- Modelled from the spec: `RunStatus.is_terminated` (from
`mlflow.entities`, not under `src/`) holds exactly on the absorbing
terminal states. -/
def RunStatus.is_terminated : RunStatus → Bool
  | RunStatus.FINISHED => true
  | RunStatus.FAILED => true
  | RunStatus.KILLED => true
  | _ => false

/-- Calls the dispatcher and the supervisor make against their
collaborators, in program order. -/
inductive Ev
  | loadBackendEv (name : String)
  | pluginRun (name : String)
  | fetchProject
  | loadProjectEv
  | getOrCreateRun (id : String)
  | setTag (id : String) (key : String) (val : String)
  | runDatabricksEv (id : String)
  | localLaunch (id : String)
  | kubernetesLaunch (id : String)
  | getRun (id : String)
  | setTerminated (id : String) (st : RunStatus)
  | cancelRun
  | waitRun
deriving DecidableEq

/-- `_maybe_set_run_terminated(active_run, status)`.  `store` is the
tracking collaborator's current run-status table (read through
`MlflowClient().get_run`); `active_run` carries the run id of the
passed-in run handle, `none` when the handle is absent.  Returns the
tracking calls made, in order. -/
def _maybe_set_run_terminated (store : String → RunStatus) (active_run : Option String)
    (status : RunStatus) : List Ev :=
  match active_run with
  | none => []
  | some run_id =>
    if RunStatus.is_terminated (store run_id) then [Ev.getRun run_id]
    else [Ev.getRun run_id, Ev.setTerminated run_id status]

/-- Outcome of blocking on `submitted_run_obj.wait()`: the run
succeeded, the run failed, or a `KeyboardInterrupt` arrived while
blocked in the wait. -/
inductive WaitOutcome
  | succeeded
  | failed
  | interrupted
deriving DecidableEq

/-- The "Run (ID '%s') failed" message of `_wait_for`. -/
def runFailedMsg (run_id : Option String) : String :=
  "Run (ID \x27" ++ pyStrOfOpt run_id ++ "\x27) failed"

/-- `_wait_for(submitted_run_obj)`.  `store` is the tracking
collaborator's status table, `run_id` the submitted run's id (`None`
possible), `outcome` what happens inside the try block.  Returns the
collaborator calls in order and the control-flow result: normal
return, the raised `ExecutionException`, or the re-raised
`KeyboardInterrupt`. -/
def _wait_for (store : String → RunStatus) (run_id : Option String) (outcome : WaitOutcome) :
    List Ev × Except PyErr Unit :=
  let getEvs : List Ev := match run_id with
    | some id => [Ev.getRun id]
    | none => []
  match outcome with
  | WaitOutcome.succeeded =>
    (getEvs ++ [Ev.waitRun] ++ _maybe_set_run_terminated store run_id RunStatus.FINISHED,
     Except.ok ())
  | WaitOutcome.failed =>
    (getEvs ++ [Ev.waitRun] ++ _maybe_set_run_terminated store run_id RunStatus.FAILED,
     Except.error (PyErr.executionException (runFailedMsg run_id)))
  | WaitOutcome.interrupted =>
    (getEvs ++ [Ev.waitRun, Ev.cancelRun] ++ _maybe_set_run_terminated store run_id RunStatus.FAILED,
     Except.error PyErr.keyboardInterrupt)

/-! ## POSIX path functions (`os.path` on the POSIX platform) -/

/-- Worker for Python `str.split(sep)`: accumulates the current field
in reverse. -/
def splitAuxC (sep : Char) : List Char → List Char → List (List Char)
  | [], acc => [acc.reverse]
  | c :: cs, acc =>
    if c = sep then acc.reverse :: splitAuxC sep cs []
    else splitAuxC sep cs (c :: acc)

/-- Python `str.split(sep)` over characters (keeps empty fields). -/
def pySplitC (sep : Char) (s : List Char) : List (List Char) :=
  splitAuxC sep s []

/-- Python `sep.join(fields)` over characters. -/
def pyJoinC (sep : Char) : List (List Char) → List Char
  | [] => []
  | [x] => x
  | x :: y :: rest => x ++ sep :: pyJoinC sep (y :: rest)

/-- Python `str.split(sep)` at the string level. -/
def pySplitOn (sep : Char) (s : String) : List String :=
  (pySplitC sep s.data).map (fun l => String.mk l)

/-- Python `s.startswith(pre)` (`os.path.isabs` is `startswith("/")`). -/
def pyStartsWith (s pre : String) : Bool :=
  s.data.take pre.data.length == pre.data

/-- Python `s.endswith(suf)`. -/
def pyEndsWith (s suf : String) : Bool :=
  s.data.drop (s.data.length - suf.data.length) == suf.data

/-- The `initial_slashes` computation in `posixpath.normpath`: 2 for a
path starting with exactly two slashes, 1 for any other absolute path,
0 otherwise. -/
def initialSlashes (p : List Char) : Nat :=
  if p.take 1 = ['/'] then
    (if p.take 2 = ['/', '/'] ∧ p.take 3 ≠ ['/', '/', '/'] then 2 else 1)
  else 0

/-- The component loop of `posixpath.normpath`: drop empty and "."
components; append ".." only when at the start of a relative path or
after another ".."; otherwise ".." pops the previous component (or is
dropped at the root). -/
def normComps (isl : Nat) : List (List Char) → List (List Char) → List (List Char)
  | [], acc => acc
  | comp :: rest, acc =>
    if comp = [] ∨ comp = ['.'] then normComps isl rest acc
    else if comp ≠ ['.', '.'] ∨ (isl = 0 ∧ acc = []) ∨ (acc ≠ [] ∧ acc.getLast? = some ['.', '.']) then
      normComps isl rest (acc ++ [comp])
    else if acc ≠ [] then normComps isl rest acc.dropLast
    else normComps isl rest acc

/-- `posixpath.normpath` over characters. -/
def normpathC (p : List Char) : List Char :=
  if p = [] then ['.']
  else
    let isl := initialSlashes p
    let nc := normComps isl (pySplitC '/' p) []
    let joined := List.replicate isl '/' ++ pyJoinC '/' nc
    if joined = [] then ['.'] else joined

/-- `os.path.normpath` (POSIX). -/
def pyNormpath (s : String) : String := String.mk (normpathC s.data)

/-- `os.path.join(a, b)` (POSIX, two arguments). -/
def posixJoin (a b : String) : String :=
  if pyStartsWith b "/" then b
  else if a = "" ∨ pyEndsWith a "/" then a ++ b
  else a ++ "/" ++ b

/-- `os.path.abspath(p)` (POSIX): resolve against the working
directory when relative, then normalize. -/
def pyAbspath (cwd p : String) : String :=
  if pyStartsWith p "/" then pyNormpath p else pyNormpath (posixJoin cwd p)

/-! ## Module constants -/

def _GENERATED_DOCKERFILE_NAME : String := "Dockerfile.mlflow-autogenerated"

def _PROJECT_TAR_ARCHIVE_NAME : String := "mlflow-project-docker-build-context"

def _MLFLOW_DOCKER_TRACKING_DIR_PATH : String := "/mlflow/tmp/mlruns"

def _MLFLOW_DOCKER_WORKDIR_PATH : String := "/mlflow/projects/code/"

/-! ## `_get_local_artifact_cmd_and_envs` and `_get_docker_image_uri` -/

/-- `_get_local_artifact_cmd_and_envs(artifact_repo)`.  `artifact_dir`
is the local artifact repository's directory path; `cwd` the process
working directory used by `os.path.abspath`.  Produces the `-v`
host:container mount flags and an empty environment contribution. -/
def _get_local_artifact_cmd_and_envs (cwd : String) (artifact_dir : String) :
    List String × List (String × String) :=
  let container_path :=
    if pyStartsWith artifact_dir "/" = false then
      pyNormpath (posixJoin _MLFLOW_DOCKER_WORKDIR_PATH artifact_dir)
    else artifact_dir
  let abs_artifact_dir := pyAbspath cwd artifact_dir
  (["-v", abs_artifact_dir ++ ":" ++ container_path], [])

/-- `_get_docker_image_uri(repository_uri, work_dir)`.  The
`_get_git_commit(work_dir)` collaborator (from
`mlflow.tracking.context.git_context`, not under `src/`) returns the
working directory's full commit hash or `None` when no revision is
resolvable; its result is passed as `git_commit`.  Falsy values (empty
strings, `None`) select the fallbacks, as in the source's truthiness
tests. -/
def _get_docker_image_uri (repository_uri : Option String) (git_commit : Option String) : String :=
  let r := match repository_uri with
    | some s => if s = "" then "docker-project" else s
    | none => "docker-project"
  let version_string := match git_commit with
    | some g => if g = "" then "" else ":" ++ g.take 7
    | none => ""
  r ++ version_string

/-! ## `_create_docker_build_ctx` and `_build_docker_image` -/

/-- File-system and docker operations performed while building an
image, in program order. -/
inductive FsEv
  | mkdtemp (dir : String)
  | copytree (src : String) (dst : String)
  | writeDockerfile (path : String) (contents : String)
  | mkstemp (path : String)
  | makeTar (out : String) (srcDir : String)
  | rmtree (dir : String)
  | removeFile (path : String)
  | dockerBuild (tag : String)
  | tagRun (run : String) (key : String) (val : String)
deriving DecidableEq

/-- `_create_docker_build_ctx(work_dir, dockerfile_contents)`.
`stagingDir` is the directory `tempfile.mkdtemp()` returns and
`tmpFile` the file `tempfile.mkstemp()` returns; `tarOk` is whether
`file_utils.make_tarfile` returns normally.  The `try/finally` removes
the staging directory on both exits; on the raising path the
exception propagates after the `finally`. -/
def _create_docker_build_ctx (work_dir : String) (dockerfile_contents : String)
    (stagingDir : String) (tmpFile : String) (tarOk : Bool) :
    List FsEv × Except PyErr String :=
  let dst_path := posixJoin stagingDir "mlflow-project-contents"
  let evs := [FsEv.mkdtemp stagingDir,
              FsEv.copytree work_dir dst_path,
              FsEv.writeDockerfile (posixJoin dst_path _GENERATED_DOCKERFILE_NAME) dockerfile_contents,
              FsEv.mkstemp tmpFile,
              FsEv.makeTar tmpFile dst_path]
  if tarOk then (evs ++ [FsEv.rmtree stagingDir], Except.ok tmpFile)
  else (evs ++ [FsEv.rmtree stagingDir], Except.error PyErr.externalError)

/-- `_build_docker_image(work_dir, repository_uri, base_image, run_id)`.
`git_commit` is the `_get_git_commit` collaborator's answer for
`work_dir`; `imageId` the identifier docker assigns to the built
image; `buildOk` whether `client.images.build` returns normally (its
exception propagates out of the function otherwise).  A failing
`os.remove` is swallowed by the source's `try/except` (only the
attempt is modelled).  Tag keys `MLFLOW_DOCKER_IMAGE_URI` and
`MLFLOW_DOCKER_IMAGE_ID` come from `mlflow.utils.mlflow_tags` (not
under `src/`). -/
def _build_docker_image (work_dir repository_uri base_image run_id : String)
    (git_commit : Option String) (imageId : String) (stagingDir tmpFile : String)
    (tarOk buildOk : Bool) : List FsEv × Except PyErr String :=
  let image_uri := _get_docker_image_uri (some repository_uri) git_commit
  let dockerfile :=
    "FROM " ++ base_image ++ "\n" ++
    "COPY " ++ _PROJECT_TAR_ARCHIVE_NAME ++ "/ " ++ _MLFLOW_DOCKER_WORKDIR_PATH ++ "\n" ++
    "WORKDIR " ++ _MLFLOW_DOCKER_WORKDIR_PATH ++ "\n"
  match _create_docker_build_ctx work_dir dockerfile stagingDir tmpFile tarOk with
  | (evs, Except.error e) => (evs, Except.error e)
  | (evs, Except.ok build_ctx_path) =>
    let evs2 := evs ++ [FsEv.dockerBuild image_uri]
    if buildOk = false then (evs2, Except.error PyErr.externalError)
    else
      (evs2 ++ [FsEv.removeFile build_ctx_path,
                FsEv.tagRun run_id "mlflow.docker.image.uri" image_uri,
                FsEv.tagRun run_id "mlflow.docker.image.id" imageId],
       Except.ok image_uri)

/-! ## `_get_docker_command` -/

/-- One entry of the project's `docker_env.environment` declaration:
either a `[name, value]` list defining a new variable, or a bare
string naming a variable to copy from the ambient environment. -/
inductive UserEnvEntry
  | pairEntry (name : String) (val : String)
  | nameEntry (name : String)
deriving DecidableEq

/-- Python dict insertion: update the value in place when the key
exists, append otherwise. -/
def envInsert (env : List (String × String)) (k v : String) : List (String × String) :=
  if env.any (fun p => p.1 = k) then
    env.map (fun p => if p.1 = k then (k, v) else p)
  else env ++ [(k, v)]

/-- Python `dict.update`. -/
def envUpdate (env new : List (String × String)) : List (String × String) :=
  new.foldl (fun e p => envInsert e p.1 p.2) env

/-- Python `", ".join(user_env_vars)`: `none` models the `TypeError`
raised when an item is a list rather than a string. -/
def pyJoinUserEntries (xs : List UserEnvEntry) : Option String :=
  match xs with
  | [] => some ""
  | UserEnvEntry.pairEntry _ _ :: _ => none
  | UserEnvEntry.nameEntry n :: rest =>
    match rest with
    | [] => some n
    | _ => (pyJoinUserEntries rest).map (fun s => n ++ ", " ++ s)

/-- The `user_env_vars` loop of `_get_docker_command`: literal pairs
are inserted; bare names are copied from the ambient environment; a
missing ambient variable raises `MlflowException` with a message built
from `", ".join(user_env_vars)` — which itself raises `TypeError` when
the declaration list contains a pair entry.  `allEntries` is the full
`user_env_vars` list used in the message. -/
def applyUserEnvVars (ambient : String → Option String) (allEntries : List UserEnvEntry) :
    List UserEnvEntry → List (String × String) → Except PyErr (List (String × String))
  | [], env => Except.ok env
  | UserEnvEntry.pairEntry k v :: rest, env =>
    applyUserEnvVars ambient allEntries rest (envInsert env k v)
  | UserEnvEntry.nameEntry n :: rest, env =>
    match ambient n with
    | some v => applyUserEnvVars ambient allEntries rest (envInsert env n v)
    | none =>
      match pyJoinUserEntries allEntries with
      | some joined =>
        Except.error (PyErr.mlflowException
          ("This project expects the " ++ joined ++
           " environment variables to be set on the machine running the project, but " ++ n ++
           " was not set. Please ensure all expected environment variables are set"))
      | none => Except.error PyErr.typeError

/-- Modelled from the spec: the run-identifying environment variables
injected for every run come from `mlflow.tracking` (not under `src/`):
the run id, the tracking-service URI, and the experiment id. -/
def _get_run_env_vars (run_id experiment_id tracking_uri : String) : List (String × String) :=
  [("MLFLOW_RUN_ID", run_id),
   ("MLFLOW_TRACKING_URI", tracking_uri),
   ("MLFLOW_EXPERIMENT_ID", experiment_id)]

/-- Inputs of `_get_docker_command(image, active_run, docker_args,
volumes, user_env_vars)`.  The tracking-connectivity and
artifact-storage contributions are produced by collaborator functions
dispatched on the tracking URI and artifact-repository kind; their
results are passed in directly. -/
structure DockerCmdInputs where
  imageTag : String
  runId : String
  experimentId : String
  trackingUri : String
  dockerArgs : List (String × String)
  trackingCmds : List String
  trackingEnvs : List (String × String)
  artifactCmds : List String
  artifactEnvs : List (String × String)
  volumes : Option (List String)
  userEnvVars : Option (List UserEnvEntry)
  ambient : String → Option String

/-- The tail of the docker command after the environment map is
settled: volume flags, `-e key=value` flags, then the image tag as the
final token. -/
def dockerCmdFinish (cmd : List String) (env_vars : List (String × String))
    (volumes : Option (List String)) (imageTag : String) : List String :=
  let cmd := cmd ++ (match volumes with
    | some vs => vs.foldr (fun v acc => "-v" :: v :: acc) []
    | none => [])
  let cmd := cmd ++ env_vars.foldr (fun p acc => "-e" :: (p.1 ++ "=" ++ p.2) :: acc) []
  cmd ++ [imageTag]

/-- `_get_docker_command(image, active_run, docker_args, volumes,
user_env_vars)`: base run flags, user docker flags, tracking and
artifact connectivity flags, user environment variables (may raise),
volumes, environment flags, image tag. -/
def _get_docker_command (inp : DockerCmdInputs) : Except PyErr (List String) :=
  let cmd := ["docker", "run", "--rm"]
  let cmd := cmd ++ (inp.dockerArgs.foldr (fun p acc => ("--" ++ p.1) :: p.2 :: acc) [])
  let env_vars := _get_run_env_vars inp.runId inp.experimentId inp.trackingUri
  let cmd := cmd ++ inp.trackingCmds ++ inp.artifactCmds
  let env_vars := envUpdate env_vars inp.trackingEnvs
  let env_vars := envUpdate env_vars inp.artifactEnvs
  match inp.userEnvVars with
  | none => Except.ok (dockerCmdFinish cmd env_vars inp.volumes inp.imageTag)
  | some entries =>
    (applyUserEnvVars inp.ambient entries entries env_vars).map
      (fun ev => dockerCmdFinish cmd ev inp.volumes inp.imageTag)

/-! ## `_run` (the backend dispatcher) -/

/-- The `supported_backends` list named in the unsupported-backend
error. -/
def supported_backends : List String := ["local", "databricks", "kubernetes"]

/-- Collaborator behaviors `_run` consults: which plugin backends
`loader.load_backend` can resolve, the run id a resolved plugin's
`SubmittedRun` reports, whether the loaded project declares a
`docker_env`, the run id the tracking service assigns to a freshly
created run, and the run id optionally supplied through the local
backend configuration. -/
structure DispatchWorld where
  plugins : List String
  pluginRunId : String
  projectHasDockerEnv : Bool
  newRunId : String
  localRunIdConfig : Option String

/-- The body of `_run` after the plugin-backend shortcut: fetch and
validate the project, reject docker projects on databricks, obtain or
create the run record, then branch on the backend name, falling
through to the unsupported-backend `ExecutionException`.  The
databricks, local and kubernetes execution paths themselves delegate
to collaborators (run_databricks, the local docker/conda launch,
kubernetes job submission) and are modelled as single launch events
with their source-ordered tags. -/
def _runCore (w : DispatchWorld) (backend_name : Option String) (loadEvs : List Ev) :
    List Ev × Except PyErr String :=
  let tr0 := loadEvs ++ [Ev.fetchProject, Ev.loadProjectEv]
  if w.projectHasDockerEnv = true ∧ backend_name = some "databricks" then
    (tr0, Except.error (PyErr.executionException
      "Running docker-based projects on Databricks is not yet supported."))
  else
    let existing_run_id := if backend_name = some "local" then w.localRunIdConfig else none
    let rid := existing_run_id.getD w.newRunId
    let tr1 := tr0 ++ [Ev.getOrCreateRun rid]
    if backend_name = some "databricks" then
      (tr1 ++ [Ev.setTag rid "mlflow.project.backend" "databricks", Ev.runDatabricksEv rid],
       Except.ok rid)
    else if backend_name = some "local" ∨ backend_name = none then
      (tr1 ++ [Ev.setTag rid "mlflow.project.backend" "local", Ev.localLaunch rid],
       Except.ok rid)
    else if backend_name = some "kubernetes" then
      (tr1 ++ [Ev.setTag rid "mlflow.project.env" "docker",
               Ev.setTag rid "mlflow.project.backend" "kubernetes",
               Ev.kubernetesLaunch rid],
       Except.ok rid)
    else
      (tr1, Except.error (PyErr.executionException
        ("Got unsupported execution mode " ++ pyStrOfOpt backend_name ++
         ". Supported values: " ++ pyReprStrList supported_backends)))

/-- `_run(uri, experiment_id, ..., backend_name, backend_config, ...)`.
A truthy backend name is first offered to the plugin loader; a
resolved plugin backend runs the project and is tagged, ending the
dispatch.  Otherwise control continues in `_runCore`. -/
def _run (w : DispatchWorld) (backend_name : Option String) : List Ev × Except PyErr String :=
  match backend_name with
  | some b =>
    if b ≠ "" then
      if b ∈ w.plugins then
        ([Ev.loadBackendEv b, Ev.pluginRun b,
          Ev.setTag w.pluginRunId "mlflow.project.backend" b],
         Except.ok w.pluginRunId)
      else _runCore w backend_name [Ev.loadBackendEv b]
    else _runCore w backend_name []
  | none => _runCore w backend_name []

/-- Effect of one tracked call on the tracking service's run table:
`get_or_create_run` registers a run in RUNNING state (modelled from
the spec: `get_or_create_run` lives in `mlflow.projects.utils`, not
under `src/`; created runs start in the RUNNING lifecycle state);
`set_terminated` overwrites the status. -/
def applyEv (st : String → Option RunStatus) : Ev → (String → Option RunStatus)
  | Ev.getOrCreateRun id => fun x => if x = id then some RunStatus.RUNNING else st x
  | Ev.setTerminated id s => fun x => if x = id then some s else st x
  | _ => st

/-- The tracking service's run table after a trace of calls. -/
def replayTrace (st : String → Option RunStatus) (tr : List Ev) : String → Option RunStatus :=
  tr.foldl applyEv st

/-! ## Lemmas about the path functions -/

lemma getLast?_mem_of_eq {α : Type} : ∀ (l : List α) (a : α), l.getLast? = some a → a ∈ l := by
  intro l
  induction l with
  | nil => intro a h; simp at h
  | cons x xs ih =>
    intro a h
    cases xs with
    | nil => simp at h; simp [h]
    | cons y ys =>
      rw [List.getLast?_cons_cons] at h
      exact List.mem_cons_of_mem x (ih a h)

lemma splitAuxC_cons_sep (sep : Char) (cs acc : List Char) :
    splitAuxC sep (sep :: cs) acc = acc.reverse :: splitAuxC sep cs [] := by
  simp [splitAuxC]

lemma splitAuxC_append_no_sep (sep : Char) :
    ∀ (x cs acc : List Char), sep ∉ x →
      splitAuxC sep (x ++ cs) acc = splitAuxC sep cs (x.reverse ++ acc) := by
  intro x
  induction x with
  | nil => intro cs acc _; simp
  | cons c x ih =>
    intro cs acc h
    have hc : ¬ c = sep := fun hh => h (by simp [hh])
    have hx : sep ∉ x := fun hh => h (List.mem_cons_of_mem c hh)
    simp only [List.cons_append, splitAuxC, if_neg hc, List.append_eq]
    rw [ih cs (c :: acc) hx]
    simp

lemma mem_splitAuxC_no_sep (sep : Char) :
    ∀ (s acc : List Char), sep ∉ acc → ∀ t ∈ splitAuxC sep s acc, sep ∉ t := by
  intro s
  induction s with
  | nil =>
    intro acc hacc t ht
    simp [splitAuxC] at ht
    subst ht
    simp [hacc]
  | cons c cs ih =>
    intro acc hacc t ht
    by_cases hc : c = sep
    · subst hc
      rw [splitAuxC_cons_sep] at ht
      rcases List.mem_cons.mp ht with h | h
      · subst h; simp [hacc]
      · exact ih [] (by simp) t h
    · simp only [splitAuxC, if_neg hc] at ht
      have hacc2 : sep ∉ c :: acc := by
        intro hm
        rcases List.mem_cons.mp hm with hm | hm
        · exact hc hm.symm
        · exact hacc hm
      exact ih (c :: acc) hacc2 t ht

lemma mem_pySplitC_no_sep (sep : Char) (s : List Char) :
    ∀ t ∈ pySplitC sep s, sep ∉ t :=
  mem_splitAuxC_no_sep sep s [] (by simp)

lemma mem_split_join (sep : Char) :
    ∀ (nc : List (List Char)), (∀ c ∈ nc, c ≠ [] ∧ sep ∉ c) →
      ∀ t ∈ pySplitC sep (pyJoinC sep nc), t = [] ∨ t ∈ nc := by
  intro nc
  induction nc with
  | nil =>
    intro _ t ht
    simp [pyJoinC, pySplitC, splitAuxC] at ht
    exact Or.inl ht
  | cons x rest ih =>
    intro h t ht
    have hx : sep ∉ x := (h x (List.mem_cons_self x rest)).2
    cases rest with
    | nil =>
      have h1 := splitAuxC_append_no_sep sep x [] [] hx
      rw [List.append_nil] at h1
      have : pySplitC sep (pyJoinC sep [x]) = [x] := by
        simp only [pyJoinC, pySplitC]
        rw [h1]
        simp [splitAuxC]
      rw [this] at ht
      simp at ht
      exact Or.inr (by simp [ht])
    | cons y rest2 =>
      have hstep : pySplitC sep (pyJoinC sep (x :: y :: rest2)) =
          x :: pySplitC sep (pyJoinC sep (y :: rest2)) := by
        simp only [pyJoinC, pySplitC]
        rw [splitAuxC_append_no_sep sep x (sep :: pyJoinC sep (y :: rest2)) [] hx]
        rw [splitAuxC_cons_sep]
        simp
      rw [hstep] at ht
      rcases List.mem_cons.mp ht with hh | hh
      · exact Or.inr (by simp [hh])
      · rcases ih (fun c hc => h c (List.mem_cons_of_mem x hc)) t hh with hh2 | hh2
        · exact Or.inl hh2
        · exact Or.inr (List.mem_cons_of_mem x hh2)

lemma mem_split_replicate (sep : Char) :
    ∀ (k : Nat) (rest : List Char) (t : List Char),
      t ∈ pySplitC sep (List.replicate k sep ++ rest) → t = [] ∨ t ∈ pySplitC sep rest := by
  intro k
  induction k with
  | zero => intro rest t ht; exact Or.inr (by simpa using ht)
  | succ n ih =>
    intro rest t ht
    rw [List.replicate_succ, List.cons_append] at ht
    simp only [pySplitC] at ht
    rw [splitAuxC_cons_sep] at ht
    rcases List.mem_cons.mp ht with h | h
    · exact Or.inl (by simpa using h)
    · exact ih rest t h

lemma normComps_no_dotdot (isl : Nat) (h : isl ≠ 0) :
    ∀ (comps acc : List (List Char)), ['.', '.'] ∉ acc →
      ['.', '.'] ∉ normComps isl comps acc := by
  intro comps
  induction comps with
  | nil => intro acc hacc; simpa [normComps] using hacc
  | cons comp rest ih =>
    intro acc hacc
    simp only [normComps]
    split_ifs with h1 h2 h3
    · exact ih acc hacc
    · apply ih
      intro hmem
      rcases List.mem_append.mp hmem with hmem | hmem
      · exact hacc hmem
      · have hcomp : comp = ['.', '.'] := by
          have hc2 : ['.', '.'] = comp := by simpa using hmem
          exact hc2.symm
        rcases h2 with h2 | h2 | h2
        · exact h2 hcomp
        · exact h h2.1
        · exact hacc (getLast?_mem_of_eq acc ['.', '.'] h2.2)
    · exact ih acc.dropLast (fun hmem => hacc (List.mem_of_mem_dropLast hmem))
    · exact ih acc hacc

lemma normComps_fields (isl : Nat) :
    ∀ (comps acc : List (List Char)), (∀ t ∈ comps, '/' ∉ t) →
      (∀ t ∈ acc, t ≠ [] ∧ '/' ∉ t) →
      ∀ t ∈ normComps isl comps acc, t ≠ [] ∧ '/' ∉ t := by
  intro comps
  induction comps with
  | nil => intro acc _ hacc; simpa [normComps] using hacc
  | cons comp rest ih =>
    intro acc hcomps hacc
    have hrest : ∀ t ∈ rest, '/' ∉ t := fun t ht => hcomps t (List.mem_cons_of_mem comp ht)
    simp only [normComps]
    split_ifs with h1 h2 h3
    · exact ih acc hrest hacc
    · apply ih (acc ++ [comp]) hrest
      intro t ht
      rcases List.mem_append.mp ht with hmem | hmem
      · exact hacc t hmem
      · have heq : t = comp := by simpa using hmem
        rw [heq]
        exact ⟨fun hnil => h1 (Or.inl hnil), hcomps comp (List.mem_cons_self comp rest)⟩
    · exact ih acc.dropLast hrest (fun t ht => hacc t (List.mem_of_mem_dropLast ht))
    · exact ih acc hrest hacc

lemma initialSlashes_cons_ne_zero (l : List Char) : initialSlashes ('/' :: l) ≠ 0 := by
  simp only [initialSlashes]
  rw [if_pos (by simp)]
  split_ifs <;> simp

lemma normpathC_abs_no_dotdot (l : List Char) :
    ['.', '.'] ∉ pySplitC '/' (normpathC ('/' :: l)) := by
  have hne : ('/' :: l) ≠ [] := by simp
  have hisl := initialSlashes_cons_ne_zero l
  have hcomps : ∀ t ∈ pySplitC '/' ('/' :: l), '/' ∉ t := mem_pySplitC_no_sep '/' ('/' :: l)
  have hnc : ∀ t ∈ normComps (initialSlashes ('/' :: l)) (pySplitC '/' ('/' :: l)) [],
      t ≠ [] ∧ '/' ∉ t :=
    normComps_fields _ _ [] hcomps (by simp)
  have hnd : ['.', '.'] ∉ normComps (initialSlashes ('/' :: l)) (pySplitC '/' ('/' :: l)) [] :=
    normComps_no_dotdot _ hisl _ [] (by simp)
  have hjoinne : List.replicate (initialSlashes ('/' :: l)) '/' ++
      pyJoinC '/' (normComps (initialSlashes ('/' :: l)) (pySplitC '/' ('/' :: l)) []) ≠ [] := by
    cases hk : initialSlashes ('/' :: l) with
    | zero => exact absurd hk hisl
    | succ n => simp [List.replicate_succ]
  rw [normpathC, if_neg hne, if_neg hjoinne]
  intro hmem
  rcases mem_split_replicate '/' _ _ _ hmem with h | h
  · simp at h
  · rcases mem_split_join '/' _ hnc _ h with h2 | h2
    · simp at h2
    · exact hnd h2

lemma no_dotdot_of_abs (s : String) (tl : List Char) (h : s.data = '/' :: tl) :
    (".." : String) ∉ pySplitOn '/' (pyNormpath s) := by
  intro hmem
  simp only [pySplitOn, pyNormpath] at hmem
  rw [h] at hmem
  rcases List.mem_map.mp hmem with ⟨t, ht, hts⟩
  have hteq : t = ['.', '.'] := by
    have := congrArg String.data hts
    simpa using this
  rw [hteq] at ht
  exact normpathC_abs_no_dotdot tl ht

/-! ## Claim theorems -/

/-- C1: for every run handle and terminal status argument,
`_maybe_set_run_terminated` re-reads the run's current status from the
tracking collaborator first and calls `setTerminated` only when that
status is not already terminal; when the run is already terminal, or
the run handle is absent, it performs no write at all. -/
theorem maybe_set_run_terminated_guard (store : String → RunStatus) (status : RunStatus) :
    _maybe_set_run_terminated store none status = [] ∧
    (∀ id, RunStatus.is_terminated (store id) = true →
      _maybe_set_run_terminated store (some id) status = [Ev.getRun id]) ∧
    (∀ id, RunStatus.is_terminated (store id) = false →
      _maybe_set_run_terminated store (some id) status =
        [Ev.getRun id, Ev.setTerminated id status]) := by
  refine ⟨rfl, ?_, ?_⟩ <;> intro id h <;> simp [_maybe_set_run_terminated, h]

/-- Witness for C1 at a concrete non-terminal store. -/
theorem maybe_set_run_terminated_guard_witness :
    _maybe_set_run_terminated (fun _ => RunStatus.RUNNING) (some "r") RunStatus.FAILED =
      [Ev.getRun "r", Ev.setTerminated "r" RunStatus.FAILED] :=
  (maybe_set_run_terminated_guard (fun _ => RunStatus.RUNNING) RunStatus.FAILED).2.2 "r" rfl

/-- C3 counterexample: the pairs ("ab", "c") and ("a", "bc") differ in
both contents and discriminator, yet `_get_conda_env_name` gives them
identical keys, because only the concatenation is hashed. -/
theorem conda_env_name_concat_collision :
    (("ab", some "c") : String × Option String) ≠ ("a", some "bc") ∧
    _get_conda_env_name "ab" (some "c") = _get_conda_env_name "a" (some "bc") :=
  ⟨by decide, rfl⟩

/-- C3 amended: `_get_conda_env_name` is deterministic, and the key is
a function of the concatenation of contents and (truthy) discriminator
alone: any two pairs with equal concatenation — even pairs differing
in contents or discriminator — receive identical keys. -/
theorem conda_env_name_key_of_concat :
    (∀ (C : String) (D : Option String), _get_conda_env_name C D = _get_conda_env_name C D) ∧
    (∀ (C C2 : String) (D D2 : Option String),
      condaKeyInput C D = condaKeyInput C2 D2 →
      _get_conda_env_name C D = _get_conda_env_name C2 D2) := by
  refine ⟨fun C D => rfl, fun C C2 D D2 hcat => ?_⟩
  simp [_get_conda_env_name, hcat]

/-- Witness for C3's amended statement at concrete colliding pairs. -/
theorem conda_env_name_key_of_concat_witness :
    _get_conda_env_name "ab" (some "c") = _get_conda_env_name "a" (some "bc") :=
  conda_env_name_key_of_concat.2 "ab" "a" (some "c") (some "bc") (by decide)

/-- C6: when a KeyboardInterrupt arrives while blocked in the
synchronous wait, the supervisor calls cancel on the submitted run,
then marks the run FAILED when it is not already terminal, and the
interruption is re-raised to the caller — in that order. -/
theorem wait_for_interrupt_order (store : String → RunStatus) (id : String) :
    _wait_for store (some id) WaitOutcome.interrupted =
      ([Ev.getRun id, Ev.waitRun, Ev.cancelRun, Ev.getRun id] ++
        (if RunStatus.is_terminated (store id) then []
         else [Ev.setTerminated id RunStatus.FAILED]),
       Except.error PyErr.keyboardInterrupt) := by
  by_cases hterm : RunStatus.is_terminated (store id) = true
  · simp [_wait_for, _maybe_set_run_terminated, hterm]
  · simp [_wait_for, _maybe_set_run_terminated, hterm]

/-- C8 counterexample: with a falsy (empty) repository URI and no
resolvable revision the produced tag is the fallback "docker-project",
not the repository URI. -/
theorem docker_image_uri_empty_repo_cex :
    _get_docker_image_uri (some "") none = "docker-project" ∧
    ("docker-project" : String) ≠ "" := by
  exact ⟨rfl, by decide⟩

/-- C8 amended: the tag is the repository URI — or the fixed fallback
"docker-project" when the URI is falsy — followed by ":" and the first
7 characters of the revision when the revision is resolvable
(non-empty), and nothing otherwise. -/
theorem docker_image_uri_amended (r g : String) (hr : r ≠ "") (hg : g ≠ "") :
    _get_docker_image_uri (some r) (some g) = r ++ (":" ++ g.take 7) ∧
    _get_docker_image_uri (some r) none = r ∧
    _get_docker_image_uri none (some g) = "docker-project" ++ (":" ++ g.take 7) ∧
    _get_docker_image_uri (some "") (some g) = "docker-project" ++ (":" ++ g.take 7) ∧
    _get_docker_image_uri (some r) (some "") = r := by
  refine ⟨?_, ?_, ?_, ?_, ?_⟩ <;> simp [_get_docker_image_uri, hr, hg]

/-- Witness for C8's amended statement at a concrete repository and
revision. -/
theorem docker_image_uri_amended_witness :
    _get_docker_image_uri (some "myrepo") (some "abcdef012345") =
      "myrepo" ++ (":" ++ ("abcdef012345" : String).take 7) :=
  (docker_image_uri_amended "myrepo" "abcdef012345" (by decide) (by decide)).1

/-- C2: with a working conda installation, two successive
`_get_or_create_conda_env` calls with the same spec return the same
environment name and issue at most one create command between them;
when the computed name is already among the listed environments, the
call returns it without issuing any create command and without
touching the environment set. -/
theorem get_or_create_conda_env_idempotent (cp : String) (rf : String → String)
    (path eid : Option String) (s : CondaState) (h : s.condaWorks = true) :
    ∃ n s1 t1 t2 s2,
      _get_or_create_conda_env cp rf path eid s = (t1, Except.ok (n, s1)) ∧
      _get_or_create_conda_env cp rf path eid s1 = (t2, Except.ok (n, s2)) ∧
      createCount t1 + createCount t2 ≤ 1 ∧
      (n ∈ s.envs → createCount t1 = 0 ∧ t1 = [CondaCmd.probeHelp, CondaCmd.listEnvs] ∧ s1 = s) := by
  by_cases hmem : _get_conda_env_name (condaFileContents rf path) eid ∈ s.envs
  · refine ⟨_get_conda_env_name (condaFileContents rf path) eid, s,
      [CondaCmd.probeHelp, CondaCmd.listEnvs], [CondaCmd.probeHelp, CondaCmd.listEnvs], s,
      ?_, ?_, ?_, ?_⟩
    · simp [_get_or_create_conda_env, h, hmem]
    · simp [_get_or_create_conda_env, h, hmem]
    · simp [createCount, isCreateCmd]
    · intro _
      exact ⟨by simp [createCount, isCreateCmd], rfl, rfl⟩
  · have hmem2 : _get_conda_env_name (condaFileContents rf path) eid ∈
        (CondaState.mk s.condaWorks
          (_get_conda_env_name (condaFileContents rf path) eid :: s.envs)).envs :=
      List.mem_cons_self _ _
    have hw2 : (CondaState.mk s.condaWorks
        (_get_conda_env_name (condaFileContents rf path) eid :: s.envs)).condaWorks = true := h
    rcases path with _ | p
    · refine ⟨_get_conda_env_name (condaFileContents rf none) eid,
        CondaState.mk s.condaWorks (_get_conda_env_name (condaFileContents rf none) eid :: s.envs),
        [CondaCmd.probeHelp, CondaCmd.listEnvs,
         CondaCmd.createBare (_get_conda_env_name (condaFileContents rf none) eid)],
        [CondaCmd.probeHelp, CondaCmd.listEnvs],
        CondaState.mk s.condaWorks (_get_conda_env_name (condaFileContents rf none) eid :: s.envs),
        ?_, ?_, ?_, ?_⟩
      · simp [_get_or_create_conda_env, h, hmem]
      · simp [_get_or_create_conda_env, h, hmem2]
      · simp [createCount, isCreateCmd]
      · intro hmem3
        exact absurd hmem3 hmem
    · by_cases hp : p = ""
      · subst hp
        refine ⟨_get_conda_env_name (condaFileContents rf (some "")) eid,
          CondaState.mk s.condaWorks
            (_get_conda_env_name (condaFileContents rf (some "")) eid :: s.envs),
          [CondaCmd.probeHelp, CondaCmd.listEnvs,
           CondaCmd.createBare (_get_conda_env_name (condaFileContents rf (some "")) eid)],
          [CondaCmd.probeHelp, CondaCmd.listEnvs],
          CondaState.mk s.condaWorks
            (_get_conda_env_name (condaFileContents rf (some "")) eid :: s.envs),
          ?_, ?_, ?_, ?_⟩
        · simp [_get_or_create_conda_env, h, hmem]
        · simp [_get_or_create_conda_env, h, hmem2]
        · simp [createCount, isCreateCmd]
        · intro hmem3
          exact absurd hmem3 hmem
      · refine ⟨_get_conda_env_name (condaFileContents rf (some p)) eid,
          CondaState.mk s.condaWorks
            (_get_conda_env_name (condaFileContents rf (some p)) eid :: s.envs),
          [CondaCmd.probeHelp, CondaCmd.listEnvs,
           CondaCmd.createFromFile (_get_conda_env_name (condaFileContents rf (some p)) eid) p],
          [CondaCmd.probeHelp, CondaCmd.listEnvs],
          CondaState.mk s.condaWorks
            (_get_conda_env_name (condaFileContents rf (some p)) eid :: s.envs),
          ?_, ?_, ?_, ?_⟩
        · simp [_get_or_create_conda_env, h, hmem, hp]
        · simp [_get_or_create_conda_env, h, hmem2]
        · simp [createCount, isCreateCmd]
        · intro hmem3
          exact absurd hmem3 hmem

/-- Witness for C2 at a concrete fresh conda state. -/
theorem get_or_create_conda_env_idempotent_witness :
    ∃ n s1 t1 t2 s2,
      _get_or_create_conda_env "conda" (fun _ => "") none none (CondaState.mk true []) =
        (t1, Except.ok (n, s1)) ∧
      _get_or_create_conda_env "conda" (fun _ => "") none none s1 = (t2, Except.ok (n, s2)) ∧
      createCount t1 + createCount t2 ≤ 1 ∧
      (n ∈ (CondaState.mk true []).envs →
        createCount t1 = 0 ∧ t1 = [CondaCmd.probeHelp, CondaCmd.listEnvs] ∧ s1 = CondaState.mk true []) :=
  get_or_create_conda_env_idempotent "conda" (fun _ => "") none none (CondaState.mk true []) rfl

/-- C4 counterexample: with a successful archive step and a raising
docker build, the staging directory is removed but the archived
build-context file is not, and the exception propagates. -/
theorem build_docker_image_archive_leak_cex :
    FsEv.rmtree "/tmp/stage" ∈
      (_build_docker_image "wd" "repo" "python:3.7" "r" none "iid" "/tmp/stage" "/tmp/ctx" true false).1 ∧
    FsEv.removeFile "/tmp/ctx" ∉
      (_build_docker_image "wd" "repo" "python:3.7" "r" none "iid" "/tmp/stage" "/tmp/ctx" true false).1 ∧
    (_build_docker_image "wd" "repo" "python:3.7" "r" none "iid" "/tmp/stage" "/tmp/ctx" true false).2 =
      Except.error PyErr.externalError := by
  exact ⟨by decide, by decide, rfl⟩

/-- C4 amended: `_create_docker_build_ctx`'s try/finally removes the
temporary staging directory on every exit path, but the archived
build-context file is removed only on the path where both the archive
step and the docker build return normally; when the build raises, the
archive is left behind. -/
theorem build_docker_image_cleanup (wd repo base run iid staging tmp : String)
    (git : Option String) (tarOk buildOk : Bool) :
    FsEv.rmtree staging ∈
      (_build_docker_image wd repo base run git iid staging tmp tarOk buildOk).1 ∧
    (FsEv.removeFile tmp ∈
        (_build_docker_image wd repo base run git iid staging tmp tarOk buildOk).1 ↔
      tarOk = true ∧ buildOk = true) := by
  cases tarOk <;> cases buildOk <;>
    simp [_build_docker_image, _create_docker_build_ctx]

/-- C5: dispatching with a backend name that is neither a loadable
plugin nor one of the built-ins fails with an `ExecutionException`
whose message names the offending mode and enumerates exactly the
supported backend names local, databricks, kubernetes. -/
theorem run_unsupported_backend_message (w : DispatchWorld) (b : String)
    (h1 : b ∉ w.plugins) (h2 : b ≠ "databricks") (h3 : b ≠ "local") (h4 : b ≠ "kubernetes") :
    (_run w (some b)).2 = Except.error (PyErr.executionException
      ("Got unsupported execution mode " ++ b ++ ". Supported values: " ++
       "[\x27local\x27, \x27databricks\x27, \x27kubernetes\x27]")) := by
  have hL : pyReprStrList supported_backends =
      "[\x27local\x27, \x27databricks\x27, \x27kubernetes\x27]" := by decide
  by_cases hb : b = ""
  · subst hb
    simp [_run, _runCore, h2, h3, h4, pyStrOfOpt, hL]
  · simp [_run, _runCore, hb, h1, h2, h3, h4, pyStrOfOpt, hL]

/-- Witness for C5 at a concrete unrecognized backend name. -/
theorem run_unsupported_backend_message_witness :
    (_run (DispatchWorld.mk [] "p" false "rid" none) (some "slurm")).2 =
      Except.error (PyErr.executionException
        ("Got unsupported execution mode " ++ "slurm" ++ ". Supported values: " ++
         "[\x27local\x27, \x27databricks\x27, \x27kubernetes\x27]")) :=
  run_unsupported_backend_message (DispatchWorld.mk [] "p" false "rid" none) "slurm"
    (by decide) (by decide) (by decide) (by decide)

/-- C7 counterexample: for the absolute but non-normalized artifact
directory "/a/../b" the host side of the produced mount is the
normalized "/b", not the directory path itself. -/
theorem local_artifact_abs_host_cex :
    (_get_local_artifact_cmd_and_envs "/cwd" "/a/../b").1 = ["-v", "/b:/a/../b"] ∧
    ("/a/../b" : String) ≠ "/b" := by
  refine ⟨?_, ?_⟩ <;> decide

/-- C7 amended: for a relative artifact directory the in-container
mount target is the path joined under the fixed in-container working
directory and normalized, and it contains no ".." segments; for an
absolute artifact directory the host side of the mount is
`os.path.abspath` of the path, i.e. its normalized form (equal to the
path whenever it is already normalized), with the path itself as the
container side. -/
theorem local_artifact_mount_amended (cwd dir : String) :
    (pyStartsWith dir "/" = false →
      _get_local_artifact_cmd_and_envs cwd dir =
        (["-v", pyAbspath cwd dir ++ ":" ++
          pyNormpath (posixJoin _MLFLOW_DOCKER_WORKDIR_PATH dir)], []) ∧
      (".." : String) ∉ pySplitOn '/' (pyNormpath (posixJoin _MLFLOW_DOCKER_WORKDIR_PATH dir))) ∧
    (pyStartsWith dir "/" = true →
      _get_local_artifact_cmd_and_envs cwd dir = (["-v", pyNormpath dir ++ ":" ++ dir], [])) := by
  constructor
  · intro h
    have hjoin : posixJoin _MLFLOW_DOCKER_WORKDIR_PATH dir = _MLFLOW_DOCKER_WORKDIR_PATH ++ dir := by
      unfold posixJoin
      rw [if_neg (by simp [h]), if_pos (Or.inr (by decide))]
    refine ⟨by simp [_get_local_artifact_cmd_and_envs, h], ?_⟩
    apply no_dotdot_of_abs _ ("mlflow/projects/code/".data ++ dir.data)
    rw [hjoin]
    rfl
  · intro h
    simp [_get_local_artifact_cmd_and_envs, h, pyAbspath]

/-- Witness for C7's amended statement at a concrete relative
directory. -/
theorem local_artifact_mount_amended_witness :
    _get_local_artifact_cmd_and_envs "/cwd" "mlruns" =
      (["-v", pyAbspath "/cwd" "mlruns" ++ ":" ++
        pyNormpath (posixJoin _MLFLOW_DOCKER_WORKDIR_PATH "mlruns")], []) ∧
    (".." : String) ∉ pySplitOn '/' (pyNormpath (posixJoin _MLFLOW_DOCKER_WORKDIR_PATH "mlruns")) :=
  (local_artifact_mount_amended "/cwd" "mlruns").1 (by decide)

/-- C9: at the failing input — a declared literal pair followed by a
bare name absent from the ambient environment — `_get_docker_command`
raises a bare `TypeError` (from evaluating the join of the mixed
declaration list while building the error message) instead of the
intended `MlflowException` naming the missing variable. -/
theorem docker_command_missing_env_typeerror :
    _get_docker_command (DockerCmdInputs.mk "img" "r" "0" "file:/tmp/mlruns" [] [] [] [] [] none
      (some [UserEnvEntry.pairEntry "FOO" "1", UserEnvEntry.nameEntry "MISSING"])
      (fun _ => none)) = Except.error PyErr.typeError := rfl

/-- C10: dispatching an unrecognized backend name is not atomic: the
run record is created via get_or_create_run before the
unsupported-backend error is raised, so the tracking service is left
holding a fresh run in RUNNING state while the dispatch call fails. -/
theorem run_unsupported_backend_leaves_running_run (w : DispatchWorld) (b : String)
    (h1 : b ∉ w.plugins) (h2 : b ≠ "databricks") (h3 : b ≠ "local") (h4 : b ≠ "kubernetes") :
    (∃ m, (_run w (some b)).2 = Except.error (PyErr.executionException m)) ∧
    Ev.getOrCreateRun w.newRunId ∈ (_run w (some b)).1 ∧
    replayTrace (fun _ => none) (_run w (some b)).1 w.newRunId = some RunStatus.RUNNING := by
  by_cases hb : b = ""
  · subst hb
    refine ⟨⟨"Got unsupported execution mode " ++ pyStrOfOpt (some "") ++
      ". Supported values: " ++ pyReprStrList supported_backends, ?_⟩, ?_, ?_⟩ <;>
      simp [_run, _runCore, h2, h3, h4, replayTrace, applyEv]
  · refine ⟨⟨"Got unsupported execution mode " ++ pyStrOfOpt (some b) ++
      ". Supported values: " ++ pyReprStrList supported_backends, ?_⟩, ?_, ?_⟩ <;>
      simp [_run, _runCore, hb, h1, h2, h3, h4, replayTrace, applyEv]

/-- Witness for C10 at a concrete unrecognized backend name. -/
theorem run_unsupported_backend_leaves_running_run_witness :
    (∃ m, (_run (DispatchWorld.mk [] "p" false "rid" none) (some "slurm")).2 =
      Except.error (PyErr.executionException m)) ∧
    Ev.getOrCreateRun "rid" ∈ (_run (DispatchWorld.mk [] "p" false "rid" none) (some "slurm")).1 ∧
    replayTrace (fun _ => none)
      (_run (DispatchWorld.mk [] "p" false "rid" none) (some "slurm")).1 "rid" =
        some RunStatus.RUNNING :=
  run_unsupported_backend_leaves_running_run (DispatchWorld.mk [] "p" false "rid" none) "slurm"
    (by decide) (by decide) (by decide) (by decide)
